import Mathlib

/-!
Verification of the real-time presence, messaging-delivery, and
call-signaling subsystem of the server repository.

The definitions below are a shallow embedding of the relevant source
functions:

* `updateMessageStatus` embeds the helper of the same name in the chat
  controller (src/unnamed/part_004, lines 231-270; the variant in
  src/unnamed/part_005 is identical).  User ids are modelled as `Nat`,
  the persisted message record as `Message`, the conversation record as
  `Conversation`.  The Mongo `findById` indirection is dropped: the
  embedding is the pure transformation the function applies to a found
  message and its found conversation.
* `sendMessageFiredUpdates` embeds the automatic-delivery loop of
  `sendMessage` (part_004, lines 439-446) as the set of participants an
  unawaited delivery update is fired for; `appLocalsOnlineUsers` is the
  in-process store that loop consults (index.js line 31).
* `updateCallStatus` embeds the call-status controller
  (part_004, lines 689-719).
* `hset`/`hdel`/`hget`/`hexists` embed the Redis hash operations on the
  shared `online-users` presence hash; `disconnectHandler` embeds the
  disconnect handler of src/unnamed/part_010 (lines 125-130),
  `webrtcRelay` the three signaling handlers (part_010 lines 84-123),
  `authMiddleware` the handshake middleware (part_010 lines 12-28), and
  `inboundHandlers`/`processEvent` the handler-registration table with
  the `safeEmit` wrapper (part_010 lines 39-130).
-/

/-- Aggregate message status, the `status` field of the message model. -/
inductive MsgStatus
  | sent
  | delivered
  | seen
  deriving DecidableEq, Repr

/-- Persisted message record: the fields of the message model that the
delivery tracker reads or writes. -/
structure Message where
  senderId : Nat
  deliveredTo : List Nat
  readBy : List Nat
  status : MsgStatus
  deriving DecidableEq, Repr

/-- Persisted conversation record: the participant id set. -/
structure Conversation where
  participants : List Nat
  deriving DecidableEq, Repr

/-- The recipients of a message: conversation participants other than the
sender, as computed inside the `seen` branch of `updateMessageStatus`
(`participants.filter(id => id !== message.senderId.toString())`). -/
def recipients (conv : Conversation) (senderId : Nat) : List Nat :=
  conv.participants.filter (fun id => id ≠ senderId)

/-- Embedding of `updateMessageStatus(messageId, userId, status)` from the
chat controller (part_004 lines 231-270), as the pure transformation on the
found message.  The `delivered` case pushes `userId` onto `deliveredTo` and
sets `status := delivered` whenever `userId` was not already present; the
`seen` case pushes `userId` onto `readBy` whenever not already present and
advances `status` to `seen` exactly when every recipient is in the new
`readBy`.  Any other status string leaves the message unchanged (the
`switch` has no default case). -/
def updateMessageStatus (conv : Conversation) (message : Message)
    (userId : Nat) (status : String) : Message :=
  if status = "delivered" then
    if message.deliveredTo.contains userId then
      message
    else
      { message with
          deliveredTo := message.deliveredTo ++ [userId]
          status := MsgStatus.delivered }
  else if status = "seen" then
    if message.readBy.contains userId then
      message
    else
      let readBy := message.readBy ++ [userId]
      let allSeen := (recipients conv message.senderId).all
        (fun recipientId => readBy.contains recipientId)
      { message with
          readBy := readBy
          status := if allSeen then MsgStatus.seen else message.status }
  else
    message

/-- A freshly created message as built in `sendMessage` (part_004 lines
427-432): empty `deliveredTo` and `readBy`, default status `sent`. -/
def initMessage (senderId : Nat) : Message :=
  { senderId := senderId, deliveredTo := [], readBy := [], status := MsgStatus.sent }

/-- One delivery-tracker operation: acting user id and the status string
passed to `updateMessageStatus`. -/
structure Op where
  user : Nat
  kind : String
  deriving Repr

/-- Apply a sequence of delivery-tracker operations to a message. -/
def applyOps (conv : Conversation) (m : Message) (ops : List Op) : Message :=
  ops.foldl (fun acc op => updateMessageStatus conv acc op.user op.kind) m

-- Basic frame facts about `updateMessageStatus`, shared by several claims.

/-- The sender id field is never written by `updateMessageStatus`. -/
theorem updateMessageStatus_senderId (conv : Conversation) (m : Message)
    (u : Nat) (s : String) :
    (updateMessageStatus conv m u s).senderId = m.senderId := by
  unfold updateMessageStatus
  split
  · split <;> rfl
  · split
    · split <;> rfl
    · rfl

/-- `readBy` only grows under `updateMessageStatus`. -/
theorem updateMessageStatus_readBy_mono (conv : Conversation) (m : Message)
    (u : Nat) (s : String) :
    ∀ x ∈ m.readBy, x ∈ (updateMessageStatus conv m u s).readBy := by
  intro x hx
  unfold updateMessageStatus
  split
  · split <;> simpa using hx
  · split
    · split
      · simpa using hx
      · simp only [List.mem_append]
        exact Or.inl hx
    · simpa using hx

/-- Case equation: `delivered` with the user already in `deliveredTo` is a
no-op (the whole record is returned unchanged). -/
theorem updateMessageStatus_delivered_mem (conv : Conversation) (m : Message)
    (u : Nat) (h : u ∈ m.deliveredTo) :
    updateMessageStatus conv m u "delivered" = m := by
  unfold updateMessageStatus
  simp [h]

/-- Case equation: `delivered` with the user not yet in `deliveredTo`
appends the user and sets the status to `delivered` unconditionally. -/
theorem updateMessageStatus_delivered_not_mem (conv : Conversation)
    (m : Message) (u : Nat) (h : u ∉ m.deliveredTo) :
    updateMessageStatus conv m u "delivered" =
      { m with deliveredTo := m.deliveredTo ++ [u]
               status := MsgStatus.delivered } := by
  unfold updateMessageStatus
  simp [h]

/-- Case equation: `seen` with the user already in `readBy` is a no-op. -/
theorem updateMessageStatus_seen_mem (conv : Conversation) (m : Message)
    (u : Nat) (h : u ∈ m.readBy) :
    updateMessageStatus conv m u "seen" = m := by
  unfold updateMessageStatus
  simp [h]

/-- Case equation: `seen` with the user not yet in `readBy` appends the
user to `readBy` and advances the status to `seen` exactly when all
recipients are in the new `readBy`. -/
theorem updateMessageStatus_seen_not_mem (conv : Conversation) (m : Message)
    (u : Nat) (h : u ∉ m.readBy) :
    updateMessageStatus conv m u "seen" =
      { m with readBy := m.readBy ++ [u]
               status :=
                 if (recipients conv m.senderId).all
                     (fun r => (m.readBy ++ [u]).contains r) then
                   MsgStatus.seen
                 else m.status } := by
  unfold updateMessageStatus
  simp [h]

/-- `deliveredTo` only grows under `updateMessageStatus`. -/
theorem updateMessageStatus_deliveredTo_mono (conv : Conversation) (m : Message)
    (u : Nat) (s : String) :
    ∀ x ∈ m.deliveredTo, x ∈ (updateMessageStatus conv m u s).deliveredTo := by
  intro x hx
  unfold updateMessageStatus
  split
  · split
    · simpa using hx
    · simp only [List.mem_append]
      exact Or.inl hx
  · split
    · split <;> simpa using hx
    · simpa using hx

/-- Case equation: any status string other than `delivered` and `seen`
falls through the `switch` and leaves the message unchanged. -/
theorem updateMessageStatus_other (conv : Conversation) (m : Message)
    (u : Nat) (s : String) (hd : s ≠ "delivered") (hs : s ≠ "seen") :
    updateMessageStatus conv m u s = m := by
  unfold updateMessageStatus
  simp [hd, hs]

/-- C1: the claim is refuted at a concrete reachable state.  Take the
conversation with participants `[0, 1]`, sender `0`, and the message
with `readBy = [1]`, `deliveredTo = []`, `status = seen` (reachable from
a fresh message by `markSeen 1` alone, since `markSeen` never writes
`deliveredTo`).  `markDelivered 1` — user `1` not yet in `deliveredTo` —
does not leave the status `seen`: it regresses it to `delivered`. -/
theorem c1_counterexample :
    1 ∉ (Message.mk 0 [] [1] MsgStatus.seen).deliveredTo ∧
    (Message.mk 0 [] [1] MsgStatus.seen).status = MsgStatus.seen ∧
    (updateMessageStatus (Conversation.mk [0, 1])
        (Message.mk 0 [] [1] MsgStatus.seen) 1 "delivered").status =
      MsgStatus.delivered := by
  refine ⟨by simp, rfl, ?_⟩
  rw [updateMessageStatus_delivered_not_mem _ _ _ (by simp)]

/-- C1 (amended): `markDelivered` is a no-op when the user is already in
`deliveredTo` (so it preserves a `seen` status in that case), but for a
user not yet in `deliveredTo` it appends the user and sets the status to
`delivered` unconditionally — even when the current status is `seen`,
which it regresses.  The aggregate status is therefore not non-decreasing
along sent -> delivered -> seen. -/
theorem c1_amended (conv : Conversation) (m : Message) (u : Nat) :
    (u ∈ m.deliveredTo → updateMessageStatus conv m u "delivered" = m) ∧
    (u ∉ m.deliveredTo →
      (updateMessageStatus conv m u "delivered").status = MsgStatus.delivered ∧
      (updateMessageStatus conv m u "delivered").deliveredTo =
        m.deliveredTo ++ [u]) := by
  constructor
  · intro h
    exact updateMessageStatus_delivered_mem conv m u h
  · intro h
    rw [updateMessageStatus_delivered_not_mem conv m u h]
    exact ⟨rfl, rfl⟩

/-- Witness for `c1_amended` at the concrete state of `c1_counterexample`:
the hypotheses are discharged at message `⟨0, [], [1], seen⟩`, user `1`. -/
theorem c1_amended_witness :
    (updateMessageStatus (Conversation.mk [0, 1])
        (Message.mk 0 [] [1] MsgStatus.seen) 1 "delivered").status =
      MsgStatus.delivered :=
  ((c1_amended (Conversation.mk [0, 1])
      (Message.mk 0 [] [1] MsgStatus.seen) 1).2 (by simp)).1

/-- C6: `markDelivered` and `markSeen` are idempotent — applying
`updateMessageStatus` twice with the same user and status string gives the
same message record as applying it once (for every status string,
including the fall-through case). -/
theorem c6_idempotent (conv : Conversation) (m : Message) (u : Nat)
    (s : String) :
    updateMessageStatus conv (updateMessageStatus conv m u s) u s =
      updateMessageStatus conv m u s := by
  by_cases hd : s = "delivered"
  · subst hd
    by_cases h : u ∈ m.deliveredTo
    · rw [updateMessageStatus_delivered_mem conv m u h,
        updateMessageStatus_delivered_mem conv m u h]
    · rw [updateMessageStatus_delivered_not_mem conv m u h]
      exact updateMessageStatus_delivered_mem conv _ u (by simp)
  · by_cases hs : s = "seen"
    · subst hs
      by_cases h : u ∈ m.readBy
      · rw [updateMessageStatus_seen_mem conv m u h,
          updateMessageStatus_seen_mem conv m u h]
      · rw [updateMessageStatus_seen_not_mem conv m u h]
        exact updateMessageStatus_seen_mem conv _ u (by simp)
    · rw [updateMessageStatus_other conv m u s hd hs,
        updateMessageStatus_other conv m u s hd hs]


/-- C10: `markDelivered` never writes `readBy` and `markSeen` never writes
`deliveredTo`; consequently a user can be present in `readBy` without ever
having been added to `deliveredTo` — witnessed concretely by marking a
fresh message seen for user `1`, which puts `1` in `readBy` while
`deliveredTo` stays empty. -/
theorem c10_frame :
    (∀ (conv : Conversation) (m : Message) (u : Nat),
      (updateMessageStatus conv m u "delivered").readBy = m.readBy ∧
      (updateMessageStatus conv m u "seen").deliveredTo = m.deliveredTo) ∧
    1 ∈ (updateMessageStatus (Conversation.mk [0, 1]) (initMessage 0) 1
          "seen").readBy ∧
    1 ∉ (updateMessageStatus (Conversation.mk [0, 1]) (initMessage 0) 1
          "seen").deliveredTo := by
  refine ⟨fun conv m u => ⟨?_, ?_⟩, ?_, ?_⟩
  · by_cases h : u ∈ m.deliveredTo
    · rw [updateMessageStatus_delivered_mem conv m u h]
    · rw [updateMessageStatus_delivered_not_mem conv m u h]
  · by_cases h : u ∈ m.readBy
    · rw [updateMessageStatus_seen_mem conv m u h]
    · rw [updateMessageStatus_seen_not_mem conv m u h]
  · rw [updateMessageStatus_seen_not_mem _ _ _ (by simp [initMessage])]
    simp
  · rw [updateMessageStatus_seen_not_mem _ _ _ (by simp [initMessage])]
    simp [initMessage]

-- Soundness of the `seen` aggregate status (one direction of claim C2).

/-- One step preserves the invariant that a `seen` status implies every
recipient is in `readBy`. -/
theorem seen_sound_step (conv : Conversation) (m : Message) (u : Nat)
    (s : String)
    (h : m.status = MsgStatus.seen →
      ∀ r ∈ recipients conv m.senderId, r ∈ m.readBy) :
    (updateMessageStatus conv m u s).status = MsgStatus.seen →
      ∀ r ∈ recipients conv (updateMessageStatus conv m u s).senderId,
        r ∈ (updateMessageStatus conv m u s).readBy := by
  rw [updateMessageStatus_senderId conv m u s]
  by_cases hd : s = "delivered"
  · subst hd
    by_cases hm : u ∈ m.deliveredTo
    · rw [updateMessageStatus_delivered_mem conv m u hm]
      exact h
    · rw [updateMessageStatus_delivered_not_mem conv m u hm]
      intro hst
      exact absurd hst (by simp)
  · by_cases hs : s = "seen"
    · subst hs
      by_cases hm : u ∈ m.readBy
      · rw [updateMessageStatus_seen_mem conv m u hm]
        exact h
      · rw [updateMessageStatus_seen_not_mem conv m u hm]
        by_cases hall : (recipients conv m.senderId).all
            (fun r => (m.readBy ++ [u]).contains r) = true
        · intro _ r hr
          have := (List.all_eq_true.mp hall) r hr
          simpa using this
        · simp only [if_neg hall]
          intro hst r hr
          have : r ∈ m.readBy := h hst r hr
          simp [this]
    · rw [updateMessageStatus_other conv m u s hd hs]
      exact h

/-- `applyOps` preserves the `seen`-soundness invariant. -/
theorem applyOps_seen_sound (conv : Conversation) (ops : List Op) :
    ∀ (m : Message),
      (m.status = MsgStatus.seen →
        ∀ r ∈ recipients conv m.senderId, r ∈ m.readBy) →
      ((applyOps conv m ops).status = MsgStatus.seen →
        ∀ r ∈ recipients conv (applyOps conv m ops).senderId,
          r ∈ (applyOps conv m ops).readBy) := by
  induction ops with
  | nil => intro m h; exact h
  | cons op rest ih =>
      intro m h
      have hstep := seen_sound_step conv m op.user op.kind h
      exact ih (updateMessageStatus conv m op.user op.kind) hstep

/-- `applyOps` never changes the sender id. -/
theorem applyOps_senderId (conv : Conversation) (ops : List Op) :
    ∀ (m : Message), (applyOps conv m ops).senderId = m.senderId := by
  induction ops with
  | nil => intro m; rfl
  | cons op rest ih =>
      intro m
      rw [show applyOps conv m (op :: rest) =
            applyOps conv (updateMessageStatus conv m op.user op.kind) rest
          from rfl,
        ih, updateMessageStatus_senderId]

/-- C2: the claimed iff is refuted at a concrete run.  Conversation
`[0, 1]`, sender `0` (so the only recipient is `1`), operation sequence
`markSeen 1` then `markDelivered 1`: afterwards `readBy` contains every
recipient, yet the status is `delivered`, not `seen` — the trailing
`markDelivered` regressed the aggregate status. -/
theorem c2_counterexample :
    recipients (Conversation.mk [0, 1]) 0 = [1] ∧
    1 ∈ (applyOps (Conversation.mk [0, 1]) (initMessage 0)
          [Op.mk 1 "seen", Op.mk 1 "delivered"]).readBy ∧
    (applyOps (Conversation.mk [0, 1]) (initMessage 0)
        [Op.mk 1 "seen", Op.mk 1 "delivered"]).status =
      MsgStatus.delivered := by
  refine ⟨rfl, by decide, by decide⟩

/-- C2 (amended): only the forward direction of the iff holds.  After any
sequence of delivery-tracker operations on a fresh message, status `seen`
implies that every recipient is in `readBy`; and `markSeen` leaves the
status unchanged when at least one recipient is still missing from the
updated `readBy`.  The converse direction fails (see the counterexample):
a later `markDelivered` can regress the status to `delivered` while
`readBy` still contains every recipient. -/
theorem c2_amended (conv : Conversation) (s : Nat) (ops : List Op) :
    ((applyOps conv (initMessage s) ops).status = MsgStatus.seen →
      ∀ r ∈ recipients conv s,
        r ∈ (applyOps conv (initMessage s) ops).readBy) ∧
    (∀ (m : Message) (u : Nat), u ∉ m.readBy →
      (∃ r ∈ recipients conv m.senderId, r ∉ m.readBy ++ [u]) →
      (updateMessageStatus conv m u "seen").status = m.status) := by
  constructor
  · have hsound := applyOps_seen_sound conv ops (initMessage s)
      (by intro h; simp [initMessage] at h)
    rw [applyOps_senderId conv ops (initMessage s)] at hsound
    exact hsound
  · intro m u hu ⟨r, hr, hnr⟩
    have hall : ¬((recipients conv m.senderId).all
        (fun x => (m.readBy ++ [u]).contains x) = true) := by
      intro hall
      exact hnr (by simpa using List.all_eq_true.mp hall r hr)
    have heq : (updateMessageStatus conv m u "seen").status =
        if (recipients conv m.senderId).all
            (fun x => (m.readBy ++ [u]).contains x) then
          MsgStatus.seen
        else m.status := by
      rw [updateMessageStatus_seen_not_mem conv m u hu]
    rw [heq, if_neg hall]

/-- Witness for `c2_amended`: in conversation `[0, 1, 2]` with sender `0`,
after `markSeen 1; markSeen 2` the status is `seen` and the theorem yields
`1 ∈ readBy`; and `markSeen 1` on a fresh message (recipient `2` still
missing) leaves the status at `sent`. -/
theorem c2_amended_witness :
    1 ∈ (applyOps (Conversation.mk [0, 1, 2]) (initMessage 0)
          [Op.mk 1 "seen", Op.mk 2 "seen"]).readBy ∧
    (updateMessageStatus (Conversation.mk [0, 1, 2])
        (Message.mk 0 [] [] MsgStatus.sent) 1 "seen").status =
      MsgStatus.sent :=
  ⟨(c2_amended (Conversation.mk [0, 1, 2]) 0
      [Op.mk 1 "seen", Op.mk 2 "seen"]).1 (by decide) 1 (by decide),
   (c2_amended (Conversation.mk [0, 1, 2]) 0 []).2
      (Message.mk 0 [] [] MsgStatus.sent) 1 (by simp)
      ⟨2, by decide, by decide⟩⟩

-- The send-message automatic-delivery path.

/-- The in-process online-users store consulted by `sendMessage`
(part_004 line 439: `req.app.locals.onlineUsers || new Map()`).  It is
initialized to an empty Set at startup (index.js line 31) and no code in
the repository ever adds an entry to it — presence is written only to
the Redis `online-users` hash by the socket handlers.  Its value is
therefore the empty collection in every reachable program state. -/
def appLocalsOnlineUsers : List Nat := []

/-- Embedding of the automatic-delivery loop of `sendMessage` (part_004
lines 441-446): the loop iterates over `conversation.participants` and
fires one unawaited `updateMessageStatus(_, p, 'delivered')` call for
each participant `p` that is not the sender and is in the online-users
store (`participantStr !== userId && onlineUsers.has(participantStr)`).
The calls are fired without being awaited, so their effects are not
sequenced with the rest of the send path; what the loop itself
determines is exactly the set of participants a call is fired for, and
that is what the embedding returns. -/
def sendMessageFiredUpdates (conv : Conversation) (onlineUsers : List Nat)
    (senderId : Nat) : List Nat :=
  conv.participants.filter
    (fun p => p != senderId && onlineUsers.contains p)

-- Call records and the call-status controller.

/-- Call status values of the call model. -/
inductive CallStatus
  | initiated
  | ongoing
  | ended
  | missed
  deriving DecidableEq, Repr

/-- Call record fields that `updateCallStatus` reads or writes. -/
structure CallRec where
  status : CallStatus
  startedAt : Option Nat
  endedAt : Option Nat
  deriving DecidableEq, Repr

/-- Result of the `updateCallStatus` controller on a found call: the saved
call record and whether the Redis call-participants key was deleted.  The
controller has no failure path for a found call — it responds 200 with the
saved record. -/
structure CallUpdateResult where
  call : CallRec
  redisScopeDeleted : Bool
  deriving DecidableEq, Repr

/-- Embedding of `updateCallStatus` (part_004 lines 689-719) on a found
call: the requested status is written unconditionally (`call.status =
status`), then `startedAt` is stamped when the new status is `ongoing` and
`endedAt` when it is `ended` (also deleting the Redis participants key),
and the record is saved and returned with HTTP 200.  `now` stands for
`new Date()`. -/
def updateCallStatus (call : CallRec) (status : CallStatus) (now : Nat) :
    CallUpdateResult :=
  let call := { call with status := status }
  if status = CallStatus.ongoing then
    CallUpdateResult.mk { call with startedAt := some now } false
  else if status = CallStatus.ended then
    CallUpdateResult.mk { call with endedAt := some now } true
  else
    CallUpdateResult.mk call false

/-- C5: the claim is refuted at a concrete call.  A call already in the
terminal state `ended` (with `endedAt = 5`) accepts a subsequent
`updateCallStatus ongoing` invocation: the record is changed (status
becomes `ongoing` and `startedAt` is stamped), no `InvalidCallStateError`
is produced — the controller has no failure path for a found call. -/
theorem c5_counterexample :
    (updateCallStatus (CallRec.mk CallStatus.ended none (some 5))
        CallStatus.ongoing 7).call ≠
      CallRec.mk CallStatus.ended none (some 5) ∧
    (updateCallStatus (CallRec.mk CallStatus.ended none (some 5))
        CallStatus.ongoing 7).call =
      CallRec.mk CallStatus.ongoing (some 7) (some 5) := by
  refine ⟨?_, rfl⟩
  intro h
  exact absurd (congrArg CallRec.status h) (by decide)

/-- C5 (amended): `updateCallStatus` performs no terminal-state check.
For a found call in a terminal state (`ended` or `missed`), any requested
status is written unconditionally and reported as success: the saved
record carries the requested status, `startedAt` is stamped for `ongoing`
and `endedAt` for `ended`.  No `InvalidCallStateError` exists in the
code. -/
theorem c5_amended (call : CallRec) (status : CallStatus) (now : Nat)
    (h : call.status = CallStatus.ended ∨ call.status = CallStatus.missed) :
    (updateCallStatus call status now).call.status = status ∧
    (status = CallStatus.ongoing →
      (updateCallStatus call status now).call.startedAt = some now) ∧
    (status = CallStatus.ended →
      (updateCallStatus call status now).call.endedAt = some now) := by
  refine ⟨?_, ?_, ?_⟩
  · cases status <;> simp [updateCallStatus]
  · intro hst
    subst hst
    simp [updateCallStatus]
  · intro hst
    subst hst
    simp [updateCallStatus]

/-- Witness for `c5_amended`: an `ended` call is moved to `ongoing` and
gets a fresh `startedAt`. -/
theorem c5_amended_witness :
    (updateCallStatus (CallRec.mk CallStatus.ended none (some 5))
        CallStatus.ongoing 7).call.status = CallStatus.ongoing ∧
    (updateCallStatus (CallRec.mk CallStatus.ended none (some 5))
        CallStatus.ongoing 7).call.startedAt = some 7 :=
  ⟨(c5_amended (CallRec.mk CallStatus.ended none (some 5))
      CallStatus.ongoing 7 (Or.inl rfl)).1,
   (c5_amended (CallRec.mk CallStatus.ended none (some 5))
      CallStatus.ongoing 7 (Or.inl rfl)).2.1 rfl⟩

-- The shared presence hash and the disconnect handler.

/-- Redis `hset` on the `online-users` hash: insert or overwrite the
field for `userId` with the connection locator `sockId` (one field per
user id — a reconnect overwrites the previous locator). -/
def hset (store : List (Nat × Nat)) (userId sockId : Nat) :
    List (Nat × Nat) :=
  (userId, sockId) :: store.filter (fun e => e.1 ≠ userId)

/-- Redis `hdel` on the `online-users` hash: remove the field for
`userId`. -/
def hdel (store : List (Nat × Nat)) (userId : Nat) : List (Nat × Nat) :=
  store.filter (fun e => e.1 ≠ userId)

/-- Redis `hget` on the `online-users` hash: the locator currently bound
to `userId`, if any. -/
def hget (store : List (Nat × Nat)) (userId : Nat) : Option Nat :=
  (store.find? (fun e => e.1 = userId)).map (fun e => e.2)

/-- Redis `hexists` on the `online-users` hash. -/
def hexists (store : List (Nat × Nat)) (userId : Nat) : Bool :=
  store.any (fun e => e.1 = userId)

/-- Embedding of the disconnect handler of part_010 (lines 125-130):
delete the presence entry for the user, then broadcast `user-offline`
exactly when `hexists` now reports the field gone.  Returns the updated
store and whether `user-offline` was broadcast. -/
def disconnectHandler (store : List (Nat × Nat)) (userId : Nat) :
    List (Nat × Nat) × Bool :=
  let store := hdel store userId
  (store, !hexists store userId)

/-- After `hdel`, `hexists` for the same user id is always false: the
guard in the disconnect handler is vacuous. -/
theorem hexists_hdel_self (store : List (Nat × Nat)) (u : Nat) :
    hexists (hdel store u) u = false := by
  simp only [hexists, hdel, List.any_eq_true, List.mem_filter]
  simp

/-- C3: the code is evaluated at the failing input.  The `online-users`
hash keeps at most one field per user id, so when user `7` opens a second
connection (locator `2`) while the first (locator `1`) is still live, the
second `hset` overwrites the first.  The disconnect of either connection
runs `hdel` and then the `hexists` guard — which is always false after
`hdel` — so `user-offline` is broadcast on every disconnect, including
when another live connection for the user remains.  The first conjunct
shows the guard is vacuous in general; the rest evaluates the failing
input. -/
theorem c3_code_bug :
    (∀ (store : List (Nat × Nat)) (u : Nat),
      (disconnectHandler store u).2 = true) ∧
    hget (hset (hset [] 7 1) 7 2) 7 = some 2 ∧
    (disconnectHandler (hset (hset [] 7 1) 7 2) 7).2 = true := by
  refine ⟨fun store u => ?_, by decide, by decide⟩
  show (!hexists (hdel store u) u) = true
  simp [hexists_hdel_self]

/-- C4: the code is evaluated at the failing input.  Presence is written
only to the Redis `online-users` hash (`hset` in the socket handlers),
but `sendMessage` consults `app.locals.onlineUsers`, which is
initialized empty and never written: the delivery loop fires no
`updateMessageStatus(_, _, 'delivered')` call for any conversation and
any sender.  In particular, for conversation `[0, 1]` with sender `0`
while recipient `1` holds locator `9` in the Redis presence hash, no
delivery update is fired, so the freshly created message keeps
`deliveredTo = []` and status `sent` — a recipient present in the
Presence Store at send time is never auto-delivered. -/
theorem c4_code_bug :
    appLocalsOnlineUsers = [] ∧
    (∀ (conv : Conversation) (senderId : Nat),
      sendMessageFiredUpdates conv appLocalsOnlineUsers senderId = []) ∧
    hget (hset [] 1 9) 1 = some 9 ∧
    sendMessageFiredUpdates (Conversation.mk [0, 1])
      appLocalsOnlineUsers 0 = [] ∧
    (initMessage 0).deliveredTo = [] ∧
    (initMessage 0).status = MsgStatus.sent := by
  refine ⟨rfl, ?_, by decide, by decide, rfl, rfl⟩
  intro conv senderId
  simp [sendMessageFiredUpdates, appLocalsOnlineUsers]

-- WebRTC signaling relay.

/-- The kind of a WebRTC signaling event. -/
inductive SignalKind
  | offer
  | answer
  | iceCandidate
  deriving DecidableEq, Repr

/-- The object emitted to the target locator by a signaling handler:
the sending user's id (`from`), the raw payload (offer, answer or
candidate), and the call id. -/
structure SignalOut where
  fromUser : Nat
  payload : Nat
  callId : Nat
  deriving DecidableEq, Repr

/-- Call-signaling scope record written by the offer handler: call id,
initiator, expiry seconds. -/
structure CallScope where
  callId : Nat
  initiator : Nat
  expirySeconds : Nat
  deriving DecidableEq, Repr

/-- Embedding of the three WebRTC signaling handlers of part_010 (lines
84-123).  The offer handler additionally records the signaling scope
(`hset call:{callId} initiator`, `expire 60`); all three then look the
target user up in the `online-users` hash and, when a locator is found,
emit the tagged payload to that locator; when the target is absent
nothing is emitted and the handler returns normally (the event is
dropped, no error is raised to the sender). -/
def webrtcHandler (kind : SignalKind) (store : List (Nat × Nat))
    (callScopes : List CallScope) (senderId targetId payload callId : Nat) :
    List CallScope × Option (Nat × SignalOut) :=
  let callScopes :=
    match kind with
    | SignalKind.offer =>
        CallScope.mk callId senderId 60 ::
          callScopes.filter (fun c => c.callId ≠ callId)
    | _ => callScopes
  match hget store targetId with
  | some sock => (callScopes, some (sock, SignalOut.mk senderId payload callId))
  | none => (callScopes, none)

/-- C7: for every signaling kind, if the target user id has a locator in
the presence hash the payload is delivered to that locator tagged with
the sender's id and the call id; if the target has no locator (`hget`
finds nothing, the code's `if (targetSocketId)` check failing) nothing is
emitted anywhere and the handler just returns: no exception reaches the
sender's connection. -/
theorem c7_signaling_relay (kind : SignalKind) (store : List (Nat × Nat))
    (callScopes : List CallScope) (senderId targetId payload callId : Nat) :
    (∀ sock, hget store targetId = some sock →
      (webrtcHandler kind store callScopes senderId targetId payload
          callId).2 = some (sock, SignalOut.mk senderId payload callId)) ∧
    (hget store targetId = none →
      (webrtcHandler kind store callScopes senderId targetId payload
          callId).2 = none) := by
  constructor
  · intro sock hs
    unfold webrtcHandler
    cases kind <;> simp [hs]
  · intro hnone
    unfold webrtcHandler
    cases kind <;> simp [hnone]

/-- Witness for `c7_signaling_relay`: with the presence hash `[(2, 9)]`,
an ice-candidate from user `1` to online user `2` is emitted to locator
`9` tagged `from = 1, callId = 4`; the same event to offline user `3` is
dropped. -/
theorem c7_signaling_relay_witness :
    (webrtcHandler SignalKind.iceCandidate [(2, 9)] [] 1 2 5 4).2 =
      some (9, SignalOut.mk 1 5 4) ∧
    (webrtcHandler SignalKind.iceCandidate [(2, 9)] [] 1 3 5 4).2 = none :=
  ⟨(c7_signaling_relay SignalKind.iceCandidate [(2, 9)] [] 1 2 5 4).1 9
      (by decide),
   (c7_signaling_relay SignalKind.iceCandidate [(2, 9)] [] 1 3 5 4).2
      (by decide)⟩

-- Handshake authentication middleware.

/-- Outcome of `jwt.verify` on the handshake token: a decoded principal
id, a thrown `TokenExpiredError`, or any other verification error
(malformed token, bad signature, ...). -/
inductive VerifyOutcome
  | ok (principalId : Nat)
  | tokenExpired
  | otherError
  deriving DecidableEq, Repr

/-- Embedding of the handshake auth middleware of part_010 (lines 12-28):
a missing token is rejected with reason `Authentication error`; a token
whose verification throws is rejected with `Token expired` when the
thrown error is a `TokenExpiredError` and with `Authentication failed`
otherwise; a decoded principal id that matches no user is rejected with
`User not found`; otherwise the principal is bound to the connection.
`Except.error` is the `next(new Error(reason))` connection rejection. -/
def authMiddleware (token : Option Nat) (verify : Nat → VerifyOutcome)
    (userExists : Nat → Bool) : Except String Nat :=
  match token with
  | none => Except.error "Authentication error"
  | some t =>
    match verify t with
    | VerifyOutcome.ok uid =>
        if userExists uid then Except.ok uid
        else Except.error "User not found"
    | VerifyOutcome.tokenExpired => Except.error "Token expired"
    | VerifyOutcome.otherError => Except.error "Authentication failed"

/-- C8: the handshake is rejected for an absent token, a token that fails
verification (expired or otherwise malformed), and a decoded principal
that matches no user; the expired-token reason `Token expired` is a
string distinct from each of the other rejection reasons, so a client can
branch on expired vs. invalid. -/
theorem c8_handshake_auth (verify : Nat → VerifyOutcome)
    (userExists : Nat → Bool) (t uid : Nat) :
    authMiddleware none verify userExists =
      Except.error "Authentication error" ∧
    (verify t = VerifyOutcome.tokenExpired →
      authMiddleware (some t) verify userExists =
        Except.error "Token expired") ∧
    (verify t = VerifyOutcome.otherError →
      authMiddleware (some t) verify userExists =
        Except.error "Authentication failed") ∧
    (verify t = VerifyOutcome.ok uid → userExists uid = false →
      authMiddleware (some t) verify userExists =
        Except.error "User not found") ∧
    ("Token expired" ≠ "Authentication error" ∧
     "Token expired" ≠ "Authentication failed" ∧
     "Token expired" ≠ "User not found") := by
  refine ⟨rfl, ?_, ?_, ?_, by decide, by decide, by decide⟩
  · intro hv
    simp [authMiddleware, hv]
  · intro hv
    simp [authMiddleware, hv]
  · intro hv hu
    simp [authMiddleware, hv, hu]

/-- Witness for `c8_handshake_auth`: with a verifier that reports token
`3` expired, token `4` malformed, and decodes token `5` to the
non-existent principal `9`, each rejection reason comes out as stated. -/
theorem c8_handshake_auth_witness :
    authMiddleware (some 3)
        (fun t => if t = 3 then VerifyOutcome.tokenExpired
          else if t = 4 then VerifyOutcome.otherError
          else VerifyOutcome.ok 9)
        (fun _ => false) = Except.error "Token expired" ∧
    authMiddleware (some 4)
        (fun t => if t = 3 then VerifyOutcome.tokenExpired
          else if t = 4 then VerifyOutcome.otherError
          else VerifyOutcome.ok 9)
        (fun _ => false) = Except.error "Authentication failed" ∧
    authMiddleware (some 5)
        (fun t => if t = 3 then VerifyOutcome.tokenExpired
          else if t = 4 then VerifyOutcome.otherError
          else VerifyOutcome.ok 9)
        (fun _ => false) = Except.error "User not found" :=
  ⟨(c8_handshake_auth
      (fun t => if t = 3 then VerifyOutcome.tokenExpired
        else if t = 4 then VerifyOutcome.otherError
        else VerifyOutcome.ok 9)
      (fun _ => false) 3 9).2.1 (by decide),
   (c8_handshake_auth
      (fun t => if t = 3 then VerifyOutcome.tokenExpired
        else if t = 4 then VerifyOutcome.otherError
        else VerifyOutcome.ok 9)
      (fun _ => false) 4 9).2.2.1 (by decide),
   (c8_handshake_auth
      (fun t => if t = 3 then VerifyOutcome.tokenExpired
        else if t = 4 then VerifyOutcome.otherError
        else VerifyOutcome.ok 9)
      (fun _ => false) 5 9).2.2.2.1 (by decide) rfl⟩

-- Per-handler error protection on an established connection.

/-- The inbound events registered on an established connection in
part_010 (lines 47-130), each paired with whether its registered handler
is wrapped in the `safeEmit` error-protection combinator.  In the source
only `join-conversations`, `send-message` and `disconnect` are wrapped;
the remaining handlers are registered bare. -/
def inboundHandlers : List (String × Bool) :=
  [("join-conversations", true),
   ("send-message", true),
   ("typing", false),
   ("stop-typing", false),
   ("message-delivered", false),
   ("message-seen", false),
   ("batch-message-seen", false),
   ("webrtc-offer", false),
   ("webrtc-answer", false),
   ("webrtc-ice-candidate", false),
   ("disconnect", true)]

/-- What one invocation of a handler body does: finish normally or throw
an exception. -/
inductive HandlerOutcome
  | normal
  | throws
  deriving DecidableEq, Repr

/-- Result of processing one inbound event: whether an `error` event was
emitted to the originating connection, and whether the exception escaped
the handler uncaught. -/
structure EventResult where
  errorEmittedToOrigin : Bool
  exceptionEscapes : Bool
  deriving DecidableEq, Repr

/-- Semantics of the `safeEmit` wrapper (part_010 lines 39-45): the body
runs inside try/catch; a thrown error is logged and emitted to the
originating socket as an `error` event and never escapes the handler. -/
def safeEmitRun (outcome : HandlerOutcome) : EventResult :=
  match outcome with
  | HandlerOutcome.normal => EventResult.mk false false
  | HandlerOutcome.throws => EventResult.mk true false

/-- Semantics of a bare handler registration: a thrown error escapes the
handler uncaught and no `error` event is emitted. -/
def bareRun (outcome : HandlerOutcome) : EventResult :=
  match outcome with
  | HandlerOutcome.normal => EventResult.mk false false
  | HandlerOutcome.throws => EventResult.mk false true

/-- Processing of one inbound event on an established connection: look
the event up in the registration table and run its handler through
`safeEmit` when it is wrapped, bare otherwise. -/
def processEvent (eventName : String) (outcome : HandlerOutcome) :
    Option EventResult :=
  (inboundHandlers.lookup eventName).map
    (fun wrapped => if wrapped then safeEmitRun outcome else bareRun outcome)

/-- C9: the claim is refuted at the concrete inbound event `typing`.  Its
handler is registered bare (not wrapped in `safeEmit`), so an exception
thrown inside it escapes uncaught and no `error` event is emitted to the
originating connection — the claimed per-handler protection does not
cover every inbound event type. -/
theorem c9_counterexample :
    ("typing", false) ∈ inboundHandlers ∧
    processEvent "typing" HandlerOutcome.throws =
      some (EventResult.mk false true) ∧
    processEvent "typing" HandlerOutcome.throws ≠
      some (EventResult.mk true false) := by
  refine ⟨by decide, by decide, by decide⟩

/-- C9 (amended): only the `join-conversations`, `send-message` and
`disconnect` handlers are wrapped in `safeEmit`; for those, an exception
thrown inside the handler is caught, surfaced as an `error` event to the
originating connection only, and does not escape (the connection stays
open).  For every other registered inbound event the handler is bare: an
exception escapes uncaught and no `error` event is emitted. -/
theorem c9_amended :
    (∀ p ∈ inboundHandlers, p.2 = true →
      processEvent p.1 HandlerOutcome.throws =
        some (EventResult.mk true false)) ∧
    (∀ p ∈ inboundHandlers, p.2 = false →
      processEvent p.1 HandlerOutcome.throws =
        some (EventResult.mk false true)) := by
  refine ⟨?_, ?_⟩ <;> decide

/-- Witness for `c9_amended`: a throwing `send-message` handler emits
`error` to the origin and the exception is contained; a throwing `typing`
handler emits nothing and the exception escapes. -/
theorem c9_amended_witness :
    processEvent "send-message" HandlerOutcome.throws =
      some (EventResult.mk true false) ∧
    processEvent "typing" HandlerOutcome.throws =
      some (EventResult.mk false true) :=
  ⟨c9_amended.1 ("send-message", true) (by decide) rfl,
   c9_amended.2 ("typing", false) (by decide) rfl⟩
